import Mathlib

/-!
Verification development for the movie-content pipeline orchestrator.

Shallow embedding conventions:
* Python floats are modelled as rationals (`ℚ`); all score formulas use
  only `+`, `*`, `/` and `min`, which are exact.
* Python dictionaries with optional keys are modelled as structures with
  `Option` fields; `movie.get(k, d)` becomes `Option.getD`.
* `datetime` timestamps are modelled as seconds (`Nat`); `timedelta(hours=1)`
  is `3600`.
* Collaborator calls (network I/O) are modelled as oracle arguments of type
  `Except String α`: `.ok` is a normal return, `.error` a raised exception.
* A Python function that catches every exception and writes
  `state.error_message` is a total Lean function on states; a function that
  can let an exception escape returns `Except String _`.
* Python truthiness of `Optional[str]` (`if state.error_message:`) is
  `truthy`: `None` and the empty string are falsy.
* Opaque payloads the orchestrator never inspects (`movie_data`,
  `movie_analysis`, `script_data`, `audio_data`, `video_data`, upload
  entries) are modelled as `String` tokens.
-/

namespace CineGenie

/-- A trending-movie entry (a Python dict with optional keys), as consumed by
`TrendMiningAgent._rank_trending_movies` and the orchestrator. -/
structure Movie where
  title : Option String := none
  rating : Option ℚ := none
  review_count : Option ℚ := none
  social_mentions : Option ℚ := none
  recent_release : Option Bool := none
  trending_score : Option ℚ := none
  viral_potential : Option ℚ := none
  deriving Repr, DecidableEq

/-- `if 'rating' in movie: score += movie['rating'] * 0.3` — note the raw,
unnormalized rating is used. -/
def rating_term (m : Movie) : ℚ :=
  match m.rating with
  | some r => r * (3/10)
  | none => 0

/-- `if 'review_count' in movie: score += min(review_count/1000, 1) * 0.2`. -/
def review_count_term (m : Movie) : ℚ :=
  match m.review_count with
  | some rc => min (rc / 1000) 1 * (1/5)
  | none => 0

/-- `if 'social_mentions' in movie: score += min(mentions/10000, 1) * 0.3`. -/
def social_mentions_term (m : Movie) : ℚ :=
  match m.social_mentions with
  | some sm => min (sm / 10000) 1 * (3/10)
  | none => 0

/-- `if 'recent_release' in movie and movie['recent_release']: score += 0.2`. -/
def recent_release_term (m : Movie) : ℚ :=
  match m.recent_release with
  | some true => 1/5
  | _ => 0

/-- The score computed for one movie by the loop body of
`TrendMiningAgent._rank_trending_movies` (agents/trend_miner/agent.py):
starts at `0.0` and accumulates the four signal terms. No clipping of any
kind is applied to the sum. -/
def computeTrendingScore (m : Movie) : ℚ :=
  rating_term m + review_count_term m + social_mentions_term m +
    recent_release_term m

/-- `movie['trending_score'] = score` for one movie. -/
def with_trending_score (m : Movie) : Movie :=
  { m with trending_score := some (computeTrendingScore m) }

/-- `x.get('trending_score', 0)`, the sort key of `_rank_trending_movies`. -/
def score_key (m : Movie) : ℚ :=
  m.trending_score.getD 0

/-- `TrendMiningAgent._rank_trending_movies`: store each movie's computed
trending score, then `sorted(movies, key=trending_score, reverse=True)`.
Python's `sorted` is a stable merge sort; `reverse=True` compares in
descending order while keeping equal-key elements in input order, which is
exactly `mergeSort` with the comparison `score b ≤ score a`. -/
def rank_trending_movies (movies : List Movie) : List Movie :=
  (movies.map with_trending_score).mergeSort
    (fun a b => decide (score_key b ≤ score_key a))

/-- `TrendMiningAgent.get_trending_movies`: each source's fetch is attempted
independently (`source_results`, one `Except` per configured source, in
order); a failing source is logged and skipped, the survivors are
concatenated, ranked, and the top 10 are returned. The enclosing
`try/except` returns `[]` instead of raising, so the function as a whole is
total. -/
def get_trending_movies (source_results : List (Except String (List Movie))) :
    List Movie :=
  let collected := source_results.foldl
    (fun acc r =>
      match r with
      | .ok ms => acc ++ ms
      | .error _ => acc) []
  (rank_trending_movies collected).take 10

/-- `TrendAnalysis` (core/models.py), the payload held by the trend cache. -/
structure TrendAnalysis where
  movie_title : String
  popularity_score : ℚ := 0
  social_mentions : Nat := 0
  review_count : Nat := 0
  average_rating : ℚ := 0
  sentiment_distribution : List (String × ℚ) := []
  trending_topics : List String := []
  fan_desires : List String := []
  most_anticipated_continuations : List String := []
  viral_potential_score : ℚ := 0
  target_audience : List String := []
  deriving Repr, DecidableEq

/-- The cache key used in `TrendMiningAgent.analyze_movie_trends`:
`f"trends_{movie_title.lower().replace(' ', '_')}"`. -/
def cache_key (movie_title : String) : String :=
  "trends_" ++ ((movie_title.toLower).replace " " "_")

/-- `self.cache`: an in-memory map from cache key to
`{'data': analysis, 'timestamp': computed_at}`. -/
def TrendCache : Type :=
  String → Option (TrendAnalysis × Nat)

/-- The cache read at the top of `analyze_movie_trends`: a hit is served only
while `now - timestamp < timedelta(hours=1)`. -/
def cache_get (cache : TrendCache) (movie_title : String) (now : Nat) :
    Option TrendAnalysis :=
  match cache (cache_key movie_title) with
  | some entry => if now - entry.2 < 3600 then some entry.1 else none
  | none => none

/-- The cache write at the bottom of `analyze_movie_trends`:
`self.cache[cache_key] = {'data': analysis, 'timestamp': now}` overwrites any
existing entry for that key. -/
def cache_put (cache : TrendCache) (movie_title : String)
    (analysis : TrendAnalysis) (now : Nat) : TrendCache :=
  fun k => if k = cache_key movie_title then some (analysis, now) else cache k

/-- `WorkflowState` (core/orchestrator.py), with the `__post_init__` defaults:
`trending_movies` and `upload_results` start as empty lists, everything else
optional starts absent. -/
structure WorkflowState where
  movie_title : Option String := none
  auto_select_movie : Bool := true
  trending_movies : List Movie := []
  selected_movie : Option Movie := none
  trend_analysis_complete : Bool := false
  movie_data : Option String := none
  data_collection_complete : Bool := false
  movie_analysis : Option String := none
  analysis_complete : Bool := false
  script_data : Option String := none
  script_complete : Bool := false
  audio_data : Option String := none
  audio_complete : Bool := false
  video_data : Option String := none
  video_complete : Bool := false
  upload_results : List String := []
  upload_complete : Bool := false
  current_step : String := "start"
  error_message : Option String := none
  workflow_id : String := "wf"
  deriving Repr, DecidableEq

/-- Python truthiness of `Optional[str]`: `None` and `""` are falsy. Every
router and `_compile_results` test `state.error_message` this way. -/
def truthy : Option String → Bool
  | none => false
  | some m => !m.isEmpty

/-- `EnhancedOrchestrator._calculate_viral_potential`:
`min(trending_score/10 + min(social_mentions/10000, 1) * 0.3, 1.0)`, with
both signals read via `movie.get(_, 0)`. -/
def calculate_viral_potential (m : Movie) : ℚ :=
  let base_score := m.trending_score.getD 0 / 10
  let popularity_boost := min (m.social_mentions.getD 0 / 10000) 1
  min (base_score + popularity_boost * (3/10)) 1

/-- `movie["viral_potential"] = ...` for one movie of the fetched list. -/
def with_viral_potential (m : Movie) : Movie :=
  { m with viral_potential := some (calculate_viral_potential m) }

/-- `state.trending_movies.sort(key=viral_potential, reverse=True)`
(stable, descending, key read via `x.get("viral_potential", 0)`). -/
def sort_by_viral_potential (ms : List Movie) : List Movie :=
  ms.mergeSort
    (fun a b => decide (b.viral_potential.getD 0 ≤ a.viral_potential.getD 0))

/-- `EnhancedOrchestrator._trend_analysis_node`. The single awaited
collaborator call (`trend_agent.get_trending_movies()`) is the `fetched`
oracle; `current_step` is written before it. On success the fetched list is
annotated with viral potential and sorted descending; on a raised exception
the `except` block records `error_message` and the slot is never written. -/
def trend_analysis_node (s : WorkflowState)
    (fetched : Except String (List Movie)) : WorkflowState :=
  let s := { s with current_step := "trend_analysis" }
  match fetched with
  | .ok tm =>
      { s with
        trending_movies := sort_by_viral_potential (tm.map with_viral_potential),
        trend_analysis_complete := true }
  | .error e => { s with error_message := some ("Trend analysis error: " ++ e) }

/-- `EnhancedOrchestrator._movie_selection_node`: no collaborator; an empty
`trending_movies` raises `ValueError("No trending movies available")`, which
the node's own `except` turns into `error_message`; otherwise the head of the
list becomes `selected_movie` and its (optional) title becomes
`movie_title`. -/
def movie_selection_node (s : WorkflowState) : WorkflowState :=
  let s := { s with current_step := "movie_selection" }
  match s.trending_movies with
  | [] =>
      { s with
        error_message :=
          some "Movie selection error: No trending movies available" }
  | m :: _ => { s with selected_movie := some m, movie_title := m.title }

/-- `EnhancedOrchestrator._data_collection_node`: the collaborator call
`movie_data_collector.collect_comprehensive_data(title)` is the oracle. -/
def data_collection_node (s : WorkflowState)
    (collected : Except String String) : WorkflowState :=
  let s := { s with current_step := "data_collection" }
  match collected with
  | .ok d => { s with movie_data := some d, data_collection_complete := true }
  | .error e => { s with error_message := some ("Data collection error: " ++ e) }

/-- `EnhancedOrchestrator._movie_analysis_node`. -/
def movie_analysis_node (s : WorkflowState)
    (analyzed : Except String String) : WorkflowState :=
  let s := { s with current_step := "movie_analysis" }
  match analyzed with
  | .ok a => { s with movie_analysis := some a, analysis_complete := true }
  | .error e => { s with error_message := some ("Movie analysis error: " ++ e) }

/-- `EnhancedOrchestrator._script_generation_node`. -/
def script_generation_node (s : WorkflowState)
    (generated : Except String String) : WorkflowState :=
  let s := { s with current_step := "script_generation" }
  match generated with
  | .ok d => { s with script_data := some d, script_complete := true }
  | .error e =>
      { s with error_message := some ("Script generation error: " ++ e) }

/-- `EnhancedOrchestrator._voice_generation_node`. -/
def voice_generation_node (s : WorkflowState)
    (generated : Except String String) : WorkflowState :=
  let s := { s with current_step := "voice_generation" }
  match generated with
  | .ok d => { s with audio_data := some d, audio_complete := true }
  | .error e =>
      { s with error_message := some ("Voice generation error: " ++ e) }

/-- `EnhancedOrchestrator._video_generation_node`. -/
def video_generation_node (s : WorkflowState)
    (generated : Except String String) : WorkflowState :=
  let s := { s with current_step := "video_generation" }
  match generated with
  | .ok d => { s with video_data := some d, video_complete := true }
  | .error e =>
      { s with error_message := some ("Video generation error: " ++ e) }

/-- `EnhancedOrchestrator._upload_content_node`. -/
def upload_content_node (s : WorkflowState)
    (uploaded : Except String (List String)) : WorkflowState :=
  let s := { s with current_step := "upload_content" }
  match uploaded with
  | .ok rs => { s with upload_results := rs, upload_complete := true }
  | .error e => { s with error_message := some ("Upload error: " ++ e) }

/-- The error record assembled by `_error_handler_node` before it is written
to `error_{workflow_id}.json`. -/
structure ErrorDetails where
  workflow_id : String
  step : String
  error : Option String
  timestamp : String
  deriving Repr, DecidableEq

/-- The `error_details` dict of `_error_handler_node`. -/
def error_details (s : WorkflowState) (now : String) : ErrorDetails :=
  { workflow_id := s.workflow_id
    step := s.current_step
    error := s.error_message
    timestamp := now }

/-- `EnhancedOrchestrator._error_handler_node`: writes the error record and
returns the state unchanged. The `open`/`json.dump` is NOT inside any
`try/except`, so a failing write (the `write_log` oracle) raises past the
node's boundary — hence the `Except` return type, unlike every other node. -/
def error_handler_node (s : WorkflowState)
    (write_log : Except String Unit) : Except String WorkflowState :=
  match write_log with
  | .ok _ => .ok s
  | .error e => .error e

/-- `EnhancedOrchestrator._should_auto_select_movie` (router after
trend-analysis). -/
def should_auto_select_movie (s : WorkflowState) : String :=
  if truthy s.error_message then "error"
  else if s.auto_select_movie then "auto_select"
  else "manual_input"

/-- `EnhancedOrchestrator._movie_selection_router`. -/
def movie_selection_router (s : WorkflowState) : String :=
  if truthy s.error_message then "error" else "success"

/-- `EnhancedOrchestrator._data_collection_router`. -/
def data_collection_router (s : WorkflowState) : String :=
  if truthy s.error_message then "error" else "success"

/-- `EnhancedOrchestrator._movie_analysis_router`. -/
def movie_analysis_router (s : WorkflowState) : String :=
  if truthy s.error_message then "error" else "success"

/-- `EnhancedOrchestrator._script_generation_router`. -/
def script_generation_router (s : WorkflowState) : String :=
  if truthy s.error_message then "error" else "success"

/-- `EnhancedOrchestrator._voice_generation_router`. -/
def voice_generation_router (s : WorkflowState) : String :=
  if truthy s.error_message then "error" else "success"

/-- `EnhancedOrchestrator._video_generation_router`. -/
def video_generation_router (s : WorkflowState) : String :=
  if truthy s.error_message then "error" else "success"

/-- `EnhancedOrchestrator._upload_router`. -/
def upload_router (s : WorkflowState) : String :=
  if truthy s.error_message then "error" else "success"

/-- The nodes of the LangGraph workflow built by `_build_workflow`, plus the
distinguished terminal `END`. -/
inductive Node where
  | trend_analysis
  | movie_selection
  | data_collection
  | movie_analysis
  | script_generation
  | voice_generation
  | video_generation
  | upload_content
  | error_handler
  | terminal
  deriving Repr, DecidableEq

/-- The router attached to each node by `add_conditional_edges`; the
`error_handler` and `END` rows have none (unconditional `add_edge` /
no outgoing edge), modelled as the empty label. -/
def route_decision (n : Node) (s : WorkflowState) : String :=
  match n with
  | .trend_analysis => should_auto_select_movie s
  | .movie_selection => movie_selection_router s
  | .data_collection => data_collection_router s
  | .movie_analysis => movie_analysis_router s
  | .script_generation => script_generation_router s
  | .voice_generation => voice_generation_router s
  | .video_generation => video_generation_router s
  | .upload_content => upload_router s
  | .error_handler => ""
  | .terminal => ""

/-- The label-to-successor dictionaries of `_build_workflow`'s
`add_conditional_edges` calls, plus `add_edge("error_handler", END)`. -/
def edge_map (n : Node) (label : String) : Option Node :=
  match n with
  | .trend_analysis =>
      if label = "auto_select" then some .movie_selection
      else if label = "manual_input" then some .data_collection
      else if label = "error" then some .error_handler
      else none
  | .movie_selection =>
      if label = "success" then some .data_collection
      else if label = "error" then some .error_handler
      else none
  | .data_collection =>
      if label = "success" then some .movie_analysis
      else if label = "error" then some .error_handler
      else none
  | .movie_analysis =>
      if label = "success" then some .script_generation
      else if label = "error" then some .error_handler
      else none
  | .script_generation =>
      if label = "success" then some .voice_generation
      else if label = "error" then some .error_handler
      else none
  | .voice_generation =>
      if label = "success" then some .video_generation
      else if label = "error" then some .error_handler
      else none
  | .video_generation =>
      if label = "success" then some .upload_content
      else if label = "error" then some .error_handler
      else none
  | .upload_content =>
      if label = "success" then some .terminal
      else if label = "error" then some .error_handler
      else none
  | .error_handler => some .terminal
  | .terminal => none

/-- After a node finishes on state `s`, the graph engine runs the node's
router on `s` and follows the matching conditional edge. -/
def next_node (n : Node) (s : WorkflowState) : Option Node :=
  edge_map n (route_decision n s)

/-- One oracle per collaborator call a workflow run can make (plus the
error-log file write). Fixing an oracle fixes every external response of the
run. -/
structure Oracle where
  fetch_trending : Except String (List Movie) := .ok []
  collect_data : Except String String := .ok "data"
  analyze : Except String String := .ok "analysis"
  generate_script : Except String String := .ok "script"
  generate_audio : Except String String := .ok "audio"
  generate_video : Except String String := .ok "video"
  upload : Except String (List String) := .ok ["ok"]
  write_error_log : Except String Unit := .ok ()

/-- Dispatch one graph node to its node function. Only `error_handler` can
let an exception escape (its un-guarded file write); every other node is a
total state transformer. -/
def apply_node (o : Oracle) (n : Node) (s : WorkflowState) :
    Except String WorkflowState :=
  match n with
  | .trend_analysis => .ok (trend_analysis_node s o.fetch_trending)
  | .movie_selection => .ok (movie_selection_node s)
  | .data_collection => .ok (data_collection_node s o.collect_data)
  | .movie_analysis => .ok (movie_analysis_node s o.analyze)
  | .script_generation => .ok (script_generation_node s o.generate_script)
  | .voice_generation => .ok (voice_generation_node s o.generate_audio)
  | .video_generation => .ok (video_generation_node s o.generate_video)
  | .upload_content => .ok (upload_content_node s o.upload)
  | .error_handler => error_handler_node s o.write_error_log
  | .terminal => .ok s

/-- The graph engine's loop (`workflow.ainvoke`), fuelled: execute the
current node, run its router, follow the edge, and record the trace of
`(node, state after that node)` pairs. An exception escaping a node aborts
the whole run. -/
def exec_from (o : Oracle) :
    Nat → Node → WorkflowState →
    Except String (List (Node × WorkflowState) × WorkflowState)
  | 0, _, s => .ok ([], s)
  | fuel + 1, n, s =>
    if n = .terminal then .ok ([], s)
    else
      match apply_node o n s with
      | .error e => .error e
      | .ok s1 =>
        match next_node n s1 with
        | none => .ok ([(n, s1)], s1)
        | some n1 =>
          match exec_from o fuel n1 s1 with
          | .error e => .error e
          | .ok (tr, sf) => .ok ((n, s1) :: tr, sf)

/-- A full run (`process_movie`): entry point `trend_analysis`; ten units of
fuel suffice for the acyclic nine-node graph. -/
def run_workflow (o : Oracle) (s : WorkflowState) :
    Except String (List (Node × WorkflowState) × WorkflowState) :=
  exec_from o 10 .trend_analysis s

/-- The per-stage result slots, as one tuple (used to say "no slot changed"). -/
def slots (s : WorkflowState) :
    List Movie × Option Movie × Option String × Option String × Option String ×
    Option String × Option String × List String :=
  (s.trending_movies, s.selected_movie, s.movie_data, s.movie_analysis,
   s.script_data, s.audio_data, s.video_data, s.upload_results)

/-- A value of the result dict built by `_compile_results`. -/
inductive RVal where
  | str (v : String)
  | ostr (v : Option String)
  | omovie (v : Option Movie)
  | movies (v : List Movie)
  | strs (v : List String)
  deriving Repr, DecidableEq

/-- `EnhancedOrchestrator._compile_results`: the exact key set (and order) of
the returned dict. `status` is `"completed"` unless `error_message` is
truthy. -/
def compile_results (s : WorkflowState) (completed_at : String) :
    List (String × RVal) :=
  [("workflow_id", .str s.workflow_id),
   ("status", .str (if truthy s.error_message then "error" else "completed")),
   ("movie_title", .ostr s.movie_title),
   ("selected_movie", .omovie s.selected_movie),
   ("trending_movies", .movies s.trending_movies),
   ("movie_data", .ostr s.movie_data),
   ("movie_analysis", .ostr s.movie_analysis),
   ("script_data", .ostr s.script_data),
   ("audio_data", .ostr s.audio_data),
   ("video_data", .ostr s.video_data),
   ("upload_results", .strs s.upload_results),
   ("error_message", .ostr s.error_message),
   ("completed_at", .str completed_at)]

/-- The Router as the specification words it (§4.3, refinement reference):
error-handler and terminal have no routed successor rule (error-handler goes
to the terminal node, terminal stops); otherwise, a truthy `errorMessage`
routes to the error-handler, and the remaining transitions are the fixed
total order, with the branch after trend-analysis governed by `autoSelect`. -/
def spec_next_node (n : Node) (error_set auto_sel : Bool) : Option Node :=
  match n with
  | .terminal => none
  | .error_handler => some .terminal
  | .trend_analysis =>
      if error_set then some .error_handler
      else if auto_sel then some .movie_selection
      else some .data_collection
  | .movie_selection =>
      if error_set then some .error_handler else some .data_collection
  | .data_collection =>
      if error_set then some .error_handler else some .movie_analysis
  | .movie_analysis =>
      if error_set then some .error_handler else some .script_generation
  | .script_generation =>
      if error_set then some .error_handler else some .voice_generation
  | .voice_generation =>
      if error_set then some .error_handler else some .video_generation
  | .video_generation =>
      if error_set then some .error_handler else some .upload_content
  | .upload_content =>
      if error_set then some .error_handler else some .terminal

/-- C2: the Router is a pure, deterministic function of exactly
(current stage, whether `errorMessage` is set, `autoSelect`): for every node
and every state, following the node's router and the graph's conditional
edges yields precisely the statically-fixed successor table of the spec,
evaluated at the triple. ("errorMessage is set" is the code's own test
`if state.error_message:`, i.e. Python truthiness.) -/
theorem router_is_pure_function_of_triple :
    ∀ (n : Node) (s : WorkflowState),
      next_node n s =
        spec_next_node n (truthy s.error_message) s.auto_select_movie := by
  intro n s
  cases hb : truthy s.error_message <;> cases ha : s.auto_select_movie <;>
    cases n <;>
      simp [next_node, route_decision, edge_map, spec_next_node,
        should_auto_select_movie, movie_selection_router,
        data_collection_router, movie_analysis_router,
        script_generation_router, voice_generation_router,
        video_generation_router, upload_router, hb, ha]

/-- C1: once `errorMessage` is set (truthy, which every stage-written message
is, all having non-empty prefixes), every router returns "error" and routes
to the error-handler; and the rest of the run from the error-handler executes
exactly the error-handler once, returning the state — and hence every result
slot — unchanged (or aborts wholesale if the error-log write raises).
So no stage other than the error-handler runs after the error is set, and no
slot is populated after that point. -/
theorem error_short_circuits_all_later_stages :
    ∀ s : WorkflowState, truthy s.error_message = true →
      (∀ n : Node, n ≠ .error_handler → n ≠ .terminal →
        route_decision n s = "error" ∧ next_node n s = some .error_handler) ∧
      (∀ (o : Oracle) (fuel : Nat),
        exec_from o (fuel + 2) .error_handler s =
          match o.write_error_log with
          | .ok _ => .ok ([(.error_handler, s)], s)
          | .error e => .error e) := by
  intro s h
  constructor
  · intro n h1 h2
    cases n <;>
      simp_all [route_decision, next_node, edge_map, should_auto_select_movie,
        movie_selection_router, data_collection_router, movie_analysis_router,
        script_generation_router, voice_generation_router,
        video_generation_router, upload_router]
  · intro o fuel
    cases hw : o.write_error_log with
    | ok u =>
        simp [exec_from, apply_node, error_handler_node, hw, next_node,
          route_decision, edge_map]
    | error e =>
        simp [exec_from, apply_node, error_handler_node, hw]

/-- Witness for C1 at a concrete errored state, stage and oracle. -/
theorem error_short_circuits_all_later_stages_witness :
    (route_decision .data_collection { error_message := some "boom" } =
        "error" ∧
      next_node .data_collection { error_message := some "boom" } =
        some .error_handler) ∧
    exec_from {} 2 .error_handler { error_message := some "boom" } =
      .ok ([(.error_handler, { error_message := some "boom" })],
        { error_message := some "boom" }) := by
  refine ⟨(error_short_circuits_all_later_stages
    { error_message := some "boom" } rfl).1 _ (by decide) (by decide), ?_⟩
  exact (error_short_circuits_all_later_stages
    { error_message := some "boom" } rfl).2 {} 0

/-- C6: the common stage contract, one pair of exact equations per pipeline
stage. On a successful collaborator call the returned state is the input
state with exactly the stage's slot populated and its completion flag set
(plus `current_step`); on a raised collaborator call it is the input state
with exactly `errorMessage` set (so the slot keeps its prior value — absent
if it was absent). All eight node functions are total state transformers
(`WorkflowState → WorkflowState`): no exception escapes a stage boundary.
Movie-selection, which has no collaborator, fails exactly on an empty
`trendingMovies`. -/
theorem stage_contract_slot_or_error :
    (∀ (s : WorkflowState) (tm : List Movie),
      trend_analysis_node s (.ok tm) =
        { s with
          current_step := "trend_analysis",
          trending_movies :=
            sort_by_viral_potential (tm.map with_viral_potential),
          trend_analysis_complete := true }) ∧
    (∀ (s : WorkflowState) (e : String),
      trend_analysis_node s (.error e) =
        { s with
          current_step := "trend_analysis",
          error_message := some ("Trend analysis error: " ++ e) }) ∧
    (∀ s : WorkflowState, s.trending_movies = [] →
      movie_selection_node s =
        { s with
          current_step := "movie_selection",
          error_message :=
            some "Movie selection error: No trending movies available" }) ∧
    (∀ (s : WorkflowState) (m : Movie) (rest : List Movie),
      s.trending_movies = m :: rest →
      movie_selection_node s =
        { s with
          current_step := "movie_selection",
          selected_movie := some m,
          movie_title := m.title }) ∧
    (∀ (s : WorkflowState) (d : String),
      data_collection_node s (.ok d) =
        { s with
          current_step := "data_collection",
          movie_data := some d,
          data_collection_complete := true }) ∧
    (∀ (s : WorkflowState) (e : String),
      data_collection_node s (.error e) =
        { s with
          current_step := "data_collection",
          error_message := some ("Data collection error: " ++ e) }) ∧
    (∀ (s : WorkflowState) (d : String),
      movie_analysis_node s (.ok d) =
        { s with
          current_step := "movie_analysis",
          movie_analysis := some d,
          analysis_complete := true }) ∧
    (∀ (s : WorkflowState) (e : String),
      movie_analysis_node s (.error e) =
        { s with
          current_step := "movie_analysis",
          error_message := some ("Movie analysis error: " ++ e) }) ∧
    (∀ (s : WorkflowState) (d : String),
      script_generation_node s (.ok d) =
        { s with
          current_step := "script_generation",
          script_data := some d,
          script_complete := true }) ∧
    (∀ (s : WorkflowState) (e : String),
      script_generation_node s (.error e) =
        { s with
          current_step := "script_generation",
          error_message := some ("Script generation error: " ++ e) }) ∧
    (∀ (s : WorkflowState) (d : String),
      voice_generation_node s (.ok d) =
        { s with
          current_step := "voice_generation",
          audio_data := some d,
          audio_complete := true }) ∧
    (∀ (s : WorkflowState) (e : String),
      voice_generation_node s (.error e) =
        { s with
          current_step := "voice_generation",
          error_message := some ("Voice generation error: " ++ e) }) ∧
    (∀ (s : WorkflowState) (d : String),
      video_generation_node s (.ok d) =
        { s with
          current_step := "video_generation",
          video_data := some d,
          video_complete := true }) ∧
    (∀ (s : WorkflowState) (e : String),
      video_generation_node s (.error e) =
        { s with
          current_step := "video_generation",
          error_message := some ("Video generation error: " ++ e) }) ∧
    (∀ (s : WorkflowState) (rs : List String),
      upload_content_node s (.ok rs) =
        { s with
          current_step := "upload_content",
          upload_results := rs,
          upload_complete := true }) ∧
    (∀ (s : WorkflowState) (e : String),
      upload_content_node s (.error e) =
        { s with
          current_step := "upload_content",
          error_message := some ("Upload error: " ++ e) }) := by
  refine ⟨fun s tm => rfl, fun s e => rfl, ?_, ?_,
    fun s d => rfl, fun s e => rfl, fun s d => rfl, fun s e => rfl,
    fun s d => rfl, fun s e => rfl, fun s d => rfl, fun s e => rfl,
    fun s d => rfl, fun s e => rfl, fun s rs => rfl, fun s e => rfl⟩
  · intro s h
    simp [movie_selection_node, h]
  · intro s m rest h
    simp [movie_selection_node, h]

/-- Witness for C6 at concrete states: an empty and a non-empty
`trendingMovies` for movie-selection, and both branches of data-collection. -/
theorem stage_contract_slot_or_error_witness :
    movie_selection_node { workflow_id := "w6" } =
      { workflow_id := "w6",
        current_step := "movie_selection",
        error_message :=
          some "Movie selection error: No trending movies available" } ∧
    movie_selection_node
        { workflow_id := "w6",
          trending_movies := [{ title := some "Dune" }] } =
      { workflow_id := "w6",
        trending_movies := [{ title := some "Dune" }],
        current_step := "movie_selection",
        selected_movie := some { title := some "Dune" },
        movie_title := some "Dune" } ∧
    data_collection_node { workflow_id := "w6" } (.error "timeout") =
      { workflow_id := "w6",
        current_step := "data_collection",
        error_message := some ("Data collection error: timeout") } := by
  refine ⟨stage_contract_slot_or_error.2.2.1 _ rfl, ?_, ?_⟩
  · exact stage_contract_slot_or_error.2.2.2.1 _ { title := some "Dune" } [] rfl
  · exact stage_contract_slot_or_error.2.2.2.2.2.1 _ "timeout"

/-- C7: with an empty `trendingMovies` list, movie-selection behaves exactly
like a collaborator failure: `errorMessage` is set (and truthy),
`selectedMovie` stays absent, and the router sends the run to the
error-handler. -/
theorem movie_selection_empty_routes_to_error_handler :
    ∀ s : WorkflowState, s.trending_movies = [] → s.selected_movie = none →
      (movie_selection_node s).error_message =
        some "Movie selection error: No trending movies available" ∧
      truthy (movie_selection_node s).error_message = true ∧
      (movie_selection_node s).selected_movie = none ∧
      next_node .movie_selection (movie_selection_node s) =
        some .error_handler := by
  intro s h1 h2
  have hnode : movie_selection_node s =
      { s with
        current_step := "movie_selection",
        error_message :=
          some "Movie selection error: No trending movies available" } := by
    simp [movie_selection_node, h1]
  rw [hnode]
  exact ⟨rfl, rfl, h2, rfl⟩

/-- Witness for C7: the freshly initialized state (both lists empty). -/
theorem movie_selection_empty_routes_to_error_handler_witness :
    (movie_selection_node { workflow_id := "w7" }).error_message =
      some "Movie selection error: No trending movies available" ∧
    truthy (movie_selection_node { workflow_id := "w7" }).error_message =
      true ∧
    (movie_selection_node { workflow_id := "w7" }).selected_movie = none ∧
    next_node .movie_selection (movie_selection_node { workflow_id := "w7" }) =
      some .error_handler :=
  movie_selection_empty_routes_to_error_handler { workflow_id := "w7" } rfl rfl

/-- C5: trend-cache round trip. A `put` followed by a `get` strictly less
than one hour later returns exactly the stored analysis; once
`now - computedAt ≥ 3600` the `get` is a miss; and a later `put` for the same
title overwrites the old entry (so a fresh `get` then returns the new
analysis). -/
theorem trend_cache_roundtrip :
    (∀ (c : TrendCache) (title : String) (a : TrendAnalysis)
        (t_put t_get : Nat), t_get - t_put < 3600 →
      cache_get (cache_put c title a t_put) title t_get = some a) ∧
    (∀ (c : TrendCache) (title : String) (a : TrendAnalysis)
        (t_put t_get : Nat), 3600 ≤ t_get - t_put →
      cache_get (cache_put c title a t_put) title t_get = none) ∧
    (∀ (c : TrendCache) (title : String) (a b : TrendAnalysis)
        (t1 t2 : Nat),
      cache_put (cache_put c title a t1) title b t2 (cache_key title) =
        some (b, t2)) ∧
    (∀ (c : TrendCache) (title : String) (a b : TrendAnalysis)
        (t1 t2 t3 : Nat), t3 - t2 < 3600 →
      cache_get (cache_put (cache_put c title a t1) title b t2) title t3 =
        some b) := by
  refine ⟨fun c title a t1 t2 h => ?_, fun c title a t1 t2 h => ?_,
    fun c title a b t1 t2 => ?_, fun c title a b t1 t2 t3 h => ?_⟩
  · simp [cache_get, cache_put, h]
  · simp [cache_get, cache_put, Nat.not_lt.mpr h]
  · simp [cache_put]
  · simp [cache_get, cache_put, h]

/-- Witness for C5: an empty cache, a fresh get 59 minutes later, a stale
get at exactly one hour, and an overwrite. -/
theorem trend_cache_roundtrip_witness :
    cache_get
        (cache_put (fun _ => none) "Dune" { movie_title := "Dune" } 100)
        "Dune" 3599 =
      some { movie_title := "Dune" } ∧
    cache_get
        (cache_put (fun _ => none) "Dune" { movie_title := "Dune" } 100)
        "Dune" 3700 =
      none ∧
    cache_get
        (cache_put
          (cache_put (fun _ => none) "Dune" { movie_title := "Dune" } 0)
          "Dune" { movie_title := "Dune 2" } 4000)
        "Dune" 4100 =
      some { movie_title := "Dune 2" } := by
  refine ⟨trend_cache_roundtrip.1 _ _ _ _ _ (by decide), ?_, ?_⟩
  · exact trend_cache_roundtrip.2.1 _ _ _ 100 3700 (by decide)
  · exact trend_cache_roundtrip.2.2.2 _ _ _ _ 0 4000 4100 (by decide)

/-- Counterexample to C9 as stated: with a failing error-log write, the
error-handler node does not return normally — `open`/`json.dump` sit in no
`try/except`, so the write's exception propagates out of the node. -/
theorem error_handler_write_failure_escapes :
    error_handler_node
        { current_step := "data_collection", error_message := some "boom",
          workflow_id := "w9" }
        (.error "disk full") =
      .error "disk full" ∧
    (error_handler_node
        { current_step := "data_collection", error_message := some "boom",
          workflow_id := "w9" }
        (.error "disk full")).isOk = false := by
  exact ⟨rfl, rfl⟩

/-- C9 amended: the error-handler persists the record
`{workflow_id, step, error, timestamp}` and, when the write succeeds,
returns the state unchanged; but a failure to write the record is NOT
swallowed — the exception escapes the node and aborts the whole run (it is
only caught by `process_movie`'s top-level handler). -/
theorem error_handler_persists_record_write_failure_propagates :
    (∀ (s : WorkflowState) (now : String),
      (error_details s now).workflow_id = s.workflow_id ∧
      (error_details s now).step = s.current_step ∧
      (error_details s now).error = s.error_message ∧
      (error_details s now).timestamp = now) ∧
    (∀ s : WorkflowState, error_handler_node s (.ok ()) = .ok s) ∧
    (∀ (s : WorkflowState) (e : String),
      error_handler_node s (.error e) = .error e) ∧
    (∀ (o : Oracle) (fuel : Nat) (s : WorkflowState) (e : String),
      o.write_error_log = .error e →
      exec_from o (fuel + 1) .error_handler s = .error e) := by
  refine ⟨fun s now => ⟨rfl, rfl, rfl, rfl⟩, fun s => rfl, fun s e => rfl,
    fun o fuel s e hw => ?_⟩
  simp [exec_from, apply_node, error_handler_node, hw]

/-- Witness for C9's amended claim: a concrete run whose error-log write
fails aborts with that exception. -/
theorem error_handler_write_failure_aborts_run_witness :
    exec_from { write_error_log := .error "disk full" } 3 .error_handler
        { error_message := some "boom", workflow_id := "w9b" } =
      .error "disk full" :=
  error_handler_persists_record_write_failure_propagates.2.2.2
    { write_error_log := .error "disk full" } 2
    { error_message := some "boom", workflow_id := "w9b" } "disk full" rfl

/-- Every message a stage writes has a non-empty literal prefix, so it is
truthy under Python's `if state.error_message:` test. -/
lemma truthy_append_of_ne_empty (p e : String) (hp : p ≠ "") :
    truthy (some (p ++ e)) = true := by
  unfold truthy
  cases h : (p ++ e).isEmpty
  · simp [h]
  · exfalso
    have h2 : p ++ e = "" := (String.isEmpty_iff _).mp h
    have hd := congrArg String.data h2
    rw [String.data_append] at hd
    have hpnil : p.data = [] := (List.append_eq_nil.mp hd).1
    exact hp (String.ext (by simpa using hpnil))

lemma foldl_collect_errors (srcs : List (Except String (List Movie)))
    (acc : List Movie) (h : ∀ r ∈ srcs, ∃ e, r = .error e) :
    srcs.foldl
      (fun acc r =>
        match r with
        | .ok ms => acc ++ ms
        | .error _ => acc) acc = acc := by
  induction srcs generalizing acc with
  | nil => rfl
  | cons r rest ih =>
      obtain ⟨e, rfl⟩ := h r (List.mem_cons_self r rest)
      exact ih acc fun r hr => h r (List.mem_cons_of_mem _ hr)

/-- C10 (implicit): `get_trending_movies` never raises to its caller — it is
a total function of the per-source outcomes (each failing source is skipped;
the enclosing `try/except` returns `[]` instead of raising). It returns at
most 10 candidates, and when every source fails it returns the empty list.
Consequently the trend-analysis stage run on such a fetch result leaves
`errorMessage` untouched and still sets its completion flag, and with
`autoSelect = false` the run routes straight on to data-collection. -/
theorem get_trending_movies_never_raises_and_bounded :
    (∀ srcs : List (Except String (List Movie)),
      (get_trending_movies srcs).length ≤ 10) ∧
    (∀ srcs : List (Except String (List Movie)),
      (∀ r ∈ srcs, ∃ e, r = .error e) → get_trending_movies srcs = []) ∧
    (∀ (s : WorkflowState) (srcs : List (Except String (List Movie))),
      (trend_analysis_node s (.ok (get_trending_movies srcs))).error_message =
        s.error_message ∧
      (trend_analysis_node s
          (.ok (get_trending_movies srcs))).trend_analysis_complete =
        true) ∧
    (∀ (s : WorkflowState) (srcs : List (Except String (List Movie))),
      s.error_message = none → s.auto_select_movie = false →
      next_node .trend_analysis
          (trend_analysis_node s (.ok (get_trending_movies srcs))) =
        some .data_collection) := by
  refine ⟨fun srcs => ?_, fun srcs h => ?_, fun s srcs => ⟨rfl, rfl⟩,
    fun s srcs h1 h2 => ?_⟩
  · simp [get_trending_movies]
  · simp [get_trending_movies, foldl_collect_errors _ _ h,
      rank_trending_movies]
  · simp [trend_analysis_node, next_node, route_decision,
      should_auto_select_movie, truthy, h1, h2, edge_map]

/-- Witness for C10 at concrete inputs: two failing sources yield the empty
list, and a manual-title run still proceeds to data-collection. -/
theorem get_trending_movies_never_raises_and_bounded_witness :
    get_trending_movies [.error "imdb down", .error "reddit down"] = [] ∧
    next_node .trend_analysis
        (trend_analysis_node
          { movie_title := some "Inception", auto_select_movie := false }
          (.ok (get_trending_movies
            [.error "imdb down", .error "reddit down"]))) =
      some .data_collection := by
  constructor
  · exact get_trending_movies_never_raises_and_bounded.2.1 _
      (by intro r hr; fin_cases hr <;> exact ⟨_, rfl⟩)
  · exact get_trending_movies_never_raises_and_bounded.2.2.2
      { movie_title := some "Inception", auto_select_movie := false } _
      rfl rfl

lemma review_count_term_le (m : Movie) : review_count_term m ≤ 1/5 := by
  unfold review_count_term
  cases m.review_count with
  | none => norm_num
  | some rc =>
      have h := mul_le_mul_of_nonneg_right (min_le_right (rc / 1000) 1)
        (by norm_num : (0:ℚ) ≤ 1/5)
      linarith

lemma social_mentions_term_le (m : Movie) : social_mentions_term m ≤ 3/10 := by
  unfold social_mentions_term
  cases m.social_mentions with
  | none => norm_num
  | some sm =>
      have h := mul_le_mul_of_nonneg_right (min_le_right (sm / 10000) 1)
        (by norm_num : (0:ℚ) ≤ 3/10)
      linarith

lemma recent_release_term_le (m : Movie) : recent_release_term m ≤ 1/5 := by
  unfold recent_release_term
  cases h : m.recent_release with
  | none => norm_num
  | some b => cases b <;> norm_num

lemma rating_term_eq_getD (m : Movie) :
    rating_term m = m.rating.getD 0 * (3/10) := by
  unfold rating_term
  cases m.rating <;> simp

/-- Counterexample to C3 as stated: the ranking score is NOT clipped to
[0, 1]. A fully-signalled movie with an IMDb-style rating of 10 scores
3.7. -/
theorem trending_score_not_clipped :
    computeTrendingScore
        { rating := some 10, review_count := some 1000,
          social_mentions := some 10000, recent_release := some true } =
      37/10 ∧
    ¬(computeTrendingScore
        { rating := some 10, review_count := some 1000,
          social_mentions := some 10000, recent_release := some true } ≤
      1) := by
  constructor <;>
    norm_num [computeTrendingScore, rating_term, review_count_term,
      social_mentions_term, recent_release_term]

/-- C3 amended: for a movie carrying all four signals the score is exactly
`rating·0.3 + min(reviewCount/1000,1)·0.2 + min(socialMentions/10000,1)·0.3 +
(recent ? 0.2 : 0)` — the raw rating, and no clipping of the sum to [0,1] —
and candidates with equal computed scores keep their input order (Python's
`sorted` is stable; `reverse=True` preserves that). -/
theorem trending_score_formula_and_stable_ties :
    (∀ (m : Movie) (r rc sm : ℚ) (rec : Bool),
      m.rating = some r → m.review_count = some rc →
      m.social_mentions = some sm → m.recent_release = some rec →
      computeTrendingScore m =
        r * (3/10) + min (rc / 1000) 1 * (1/5) +
          min (sm / 10000) 1 * (3/10) + (if rec then 1/5 else 0)) ∧
    (∀ (movies : List Movie) (a b : Movie),
      [a, b].Sublist (movies.map with_trending_score) →
      score_key a = score_key b →
      [a, b].Sublist (rank_trending_movies movies)) := by
  constructor
  · intro m r rc sm rec h1 h2 h3 h4
    unfold computeTrendingScore rating_term review_count_term
      social_mentions_term recent_release_term
    rw [h1, h2, h3, h4]
    cases rec <;> norm_num
  · intro movies a b hab h
    unfold rank_trending_movies
    refine List.pair_sublist_mergeSort ?_ ?_ (by simp [h]) hab
    · intro x y z h1 h2
      simp only [decide_eq_true_eq] at h1 h2 ⊢
      exact le_trans h2 h1
    · intro x y
      simp only [Bool.or_eq_true, decide_eq_true_eq]
      exact le_total _ _

/-- Witness for C3's amended claim: the formula at a concrete movie, and a
tie between two distinct movies of equal score preserved by the ranking. -/
theorem trending_score_formula_and_stable_ties_witness :
    computeTrendingScore
        { rating := some 8, review_count := some 500,
          social_mentions := some 2000, recent_release := some false } =
      8 * (3/10) + min ((500 : ℚ) / 1000) 1 * (1/5) +
        min ((2000 : ℚ) / 10000) 1 * (3/10) + (if false then 1/5 else 0) ∧
    [with_trending_score { title := some "A", rating := some 1 },
     with_trending_score { title := some "B", rating := some 1 }].Sublist
      (rank_trending_movies
        [{ title := some "A", rating := some 1 },
         { title := some "B", rating := some 1 }]) := by
  constructor
  · exact trending_score_formula_and_stable_ties.1 _ 8 500 2000 false
      rfl rfl rfl rfl
  · exact trending_score_formula_and_stable_ties.2
      [{ title := some "A", rating := some 1 },
       { title := some "B", rating := some 1 }] _ _
      (by simp) rfl

/-- Counterexample to C4 as stated: the score does not always lie in [0,1] —
a movie whose only signal is a rating of 4 already scores 1.2. -/
theorem trending_score_can_exceed_one :
    computeTrendingScore { rating := some 4 } = 6/5 ∧
    ¬(computeTrendingScore { rating := some 4 } ≤ 1) := by
  constructor <;>
    norm_num [computeTrendingScore, rating_term, review_count_term,
      social_mentions_term, recent_release_term]

/-- C4 amended: the trending score is monotone non-decreasing in each
individual signal with the others held fixed; it is nonnegative whenever the
present signals are nonnegative; and it is bounded by
`rating·0.3 + 0.7` — but NOT clipped to [0, 1] (the rating enters raw). -/
theorem trending_score_monotone_and_bounds :
    (∀ (m : Movie) (r r' : ℚ), r ≤ r' →
      computeTrendingScore { m with rating := some r } ≤
        computeTrendingScore { m with rating := some r' }) ∧
    (∀ (m : Movie) (rc rc' : ℚ), rc ≤ rc' →
      computeTrendingScore { m with review_count := some rc } ≤
        computeTrendingScore { m with review_count := some rc' }) ∧
    (∀ (m : Movie) (sm sm' : ℚ), sm ≤ sm' →
      computeTrendingScore { m with social_mentions := some sm } ≤
        computeTrendingScore { m with social_mentions := some sm' }) ∧
    (∀ m : Movie,
      (∀ r ∈ m.rating, 0 ≤ r) → (∀ x ∈ m.review_count, 0 ≤ x) →
      (∀ x ∈ m.social_mentions, 0 ≤ x) → 0 ≤ computeTrendingScore m) ∧
    (∀ m : Movie,
      computeTrendingScore m ≤ m.rating.getD 0 * (3/10) + 7/10) := by
  refine ⟨?_, ?_, ?_, ?_, ?_⟩
  · intro m r r' h
    cases m
    unfold computeTrendingScore rating_term review_count_term
      social_mentions_term recent_release_term
    simp only
    have := mul_le_mul_of_nonneg_right h (by norm_num : (0:ℚ) ≤ 3/10)
    linarith
  · intro m rc rc' h
    cases m
    unfold computeTrendingScore rating_term review_count_term
      social_mentions_term recent_release_term
    simp only
    have h1 : rc / 1000 ≤ rc' / 1000 := by linarith
    have h2 := mul_le_mul_of_nonneg_right
      (min_le_min h1 (le_refl (1 : ℚ))) (by norm_num : (0:ℚ) ≤ 1/5)
    linarith
  · intro m sm sm' h
    cases m
    unfold computeTrendingScore rating_term review_count_term
      social_mentions_term recent_release_term
    simp only
    have h1 : sm / 10000 ≤ sm' / 10000 := by linarith
    have h2 := mul_le_mul_of_nonneg_right
      (min_le_min h1 (le_refl (1 : ℚ))) (by norm_num : (0:ℚ) ≤ 3/10)
    linarith
  · intro m h1 h2 h3
    unfold computeTrendingScore
    have t1 : 0 ≤ rating_term m := by
      unfold rating_term
      cases hr : m.rating with
      | none => norm_num
      | some r =>
          have := h1 r (by simp [hr])
          positivity
    have t2 : 0 ≤ review_count_term m := by
      unfold review_count_term
      cases hr : m.review_count with
      | none => norm_num
      | some rc =>
          have hrc := h2 rc (by simp [hr])
          have : (0:ℚ) ≤ min (rc / 1000) 1 :=
            le_min (by positivity) (by norm_num)
          positivity
    have t3 : 0 ≤ social_mentions_term m := by
      unfold social_mentions_term
      cases hr : m.social_mentions with
      | none => norm_num
      | some sm =>
          have hsm := h3 sm (by simp [hr])
          have : (0:ℚ) ≤ min (sm / 10000) 1 :=
            le_min (by positivity) (by norm_num)
          positivity
    have t4 : 0 ≤ recent_release_term m := by
      unfold recent_release_term
      cases hr : m.recent_release with
      | none => norm_num
      | some b => cases b <;> norm_num
    linarith
  · intro m
    unfold computeTrendingScore
    have t1 := rating_term_eq_getD m
    have t2 := review_count_term_le m
    have t3 := social_mentions_term_le m
    have t4 := recent_release_term_le m
    linarith

/-- Witness for C4's amended claim at concrete inputs. -/
theorem trending_score_monotone_and_bounds_witness :
    computeTrendingScore { rating := some 2, review_count := some 100 } ≤
      computeTrendingScore { rating := some 3, review_count := some 100 } ∧
    0 ≤ computeTrendingScore { rating := some 2, review_count := some 100 } ∧
    computeTrendingScore { rating := some 2, review_count := some 100 } ≤
      ((2 : ℚ)) * (3/10) + 7/10 := by
  refine ⟨?_, ?_, ?_⟩
  · exact trending_score_monotone_and_bounds.1
      { review_count := some 100 } 2 3 (by norm_num)
  · exact trending_score_monotone_and_bounds.2.2.2.1
      { rating := some 2, review_count := some 100 }
      (by intro r hr; simp at hr; subst hr; norm_num)
      (by intro x hx; simp at hx; subst hx; norm_num)
      (by intro x hx; simp at hx)
  · exact trending_score_monotone_and_bounds.2.2.2.2
      { rating := some 2, review_count := some 100 }

/-- `EnhancedOrchestrator.get_workflow_status`: a stub that always reports
`status: "completed"` with only a workflow id and timestamp — it carries
neither `errorMessage` nor `currentStep`. -/
def get_workflow_status (workflow_id : String) (now : String) :
    List (String × RVal) :=
  [("workflow_id", .str workflow_id),
   ("status", .str "completed"),
   ("timestamp", .str now)]

/-- A concrete failed run: manual title, trend analysis succeeds with an
empty fetch, then the data-collection collaborator raises. -/
def failed_collection_state : WorkflowState :=
  data_collection_node
    (trend_analysis_node
      { movie_title := some "Inception", auto_select_movie := false,
        workflow_id := "w8" }
      (.ok []))
    (.error "connection refused")

/-- Counterexample to C8 as stated: for a concrete failed run the compiled
`WorkflowResult` has `status = "error"` and carries the `errorMessage`, and
the state knows the failing stage (`current_step = "data_collection"`), but
the result dict built by `_compile_results` has NO `current_step` key at all
— the caller cannot read the failing stage from the result. (The
`get_workflow_status` polling stub even reports `"completed"` and has no
error fields.) -/
theorem compiled_result_lacks_current_step :
    failed_collection_state.current_step = "data_collection" ∧
    (compile_results failed_collection_state "t0").lookup "status" =
      some (.str "error") ∧
    (compile_results failed_collection_state "t0").lookup "current_step" =
      none ∧
    (get_workflow_status "w8" "t0").lookup "status" =
      some (.str "completed") ∧
    (get_workflow_status "w8" "t0").lookup "error_message" = none := by
  refine ⟨rfl, ?_, ?_, ?_, ?_⟩ <;> rfl

/-- C8 amended: for every failed run the compiled result reports
`status = "error"` and carries the `errorMessage`, and the failing stage is
recorded in the state's `currentStep` field — but the compiled result itself
contains no `currentStep` entry. In scenario C (data-collection's
collaborator raises), the state's `currentStep` is `"data_collection"` and
`movieData` stays absent. -/
theorem failed_run_result_reports_error_without_current_step :
    (∀ (s : WorkflowState) (t : String), truthy s.error_message = true →
      (compile_results s t).lookup "status" = some (.str "error") ∧
      (compile_results s t).lookup "error_message" =
        some (.ostr s.error_message) ∧
      (compile_results s t).lookup "current_step" = none) ∧
    (∀ (s : WorkflowState) (e : String),
      (data_collection_node s (.error e)).current_step =
        "data_collection" ∧
      (data_collection_node s (.error e)).movie_data = s.movie_data ∧
      (data_collection_node s (.error e)).error_message =
        some ("Data collection error: " ++ e) ∧
      truthy (data_collection_node s (.error e)).error_message = true) := by
  constructor
  · intro s t h
    refine ⟨?_, ?_, ?_⟩ <;> simp [compile_results, List.lookup, h]
  · intro s e
    refine ⟨rfl, rfl, rfl, ?_⟩
    exact truthy_append_of_ne_empty "Data collection error: " e (by decide)

/-- Witness for C8's amended claim at the concrete failed run. -/
theorem failed_run_result_reports_error_witness :
    (compile_results failed_collection_state "t0").lookup "status" =
      some (.str "error") ∧
    (compile_results failed_collection_state "t0").lookup "error_message" =
      some (.ostr (some "Data collection error: connection refused")) ∧
    (compile_results failed_collection_state "t0").lookup "current_step" =
      none := by
  have h := failed_run_result_reports_error_without_current_step.1
    failed_collection_state "t0" rfl
  exact ⟨h.1, h.2.1, h.2.2⟩

end CineGenie
